import Mathlib

/-!
Verification development for the praxtica-backend real-time voice practice
engine.  The definitions below are shallow embeddings of the TypeScript
sources: `language-analytics.service.ts`, `cefr-analysis.service.ts`,
`language.service.ts` (completePracticeSession, handleUserTranscript),
`realtime-practice.gateway.ts` (audio backup buffer, stop/disconnect
handlers) and the realtime session registry (`closeSession`).

Conventions used throughout the embedding:
* JavaScript strings are Lean `String`s; `Date` values are epoch
  milliseconds (`Int`); JS numbers that may be fractional are `Rat`.
* `a || b` on possibly-absent strings is `jsOrOpt` / `jsOrStr`
  (JS treats `null`, `undefined` and `""` as falsy);
  `a || b` on numbers maps `0` to the default (`jsOrInt`, `jsOrRat`).
* JS `Map`s are association lists with `alGet` / `alSet` / `alDel`.
-/

namespace Praxtica

/-- JS `opt || dflt` for an optional string: `null`/`undefined`/`""` are falsy. -/
def jsOrOpt (o : Option String) (dflt : String) : String :=
  match o with
  | some s => if s = "" then dflt else s
  | none => dflt

/-- JS `s || dflt` for a present string: only `""` is falsy. -/
def jsOrStr (s : String) (dflt : String) : String :=
  if s = "" then dflt else s

/-- JS `opt || dflt` for an optional integer: `undefined` and `0` are falsy. -/
def jsOrInt (o : Option Int) (dflt : Int) : Int :=
  match o with
  | some x => if x = 0 then dflt else x
  | none => dflt

/-- JS `opt || dflt` for an optional rational: `undefined` and `0` are falsy. -/
def jsOrRat (o : Option Rat) (dflt : Rat) : Rat :=
  match o with
  | some x => if x = 0 then dflt else x
  | none => dflt

/-- JS `opt || []` for an optional array (an array is always truthy). -/
def jsOrList (o : Option (List α)) : List α :=
  o.getD []

/-- `Map.get` on a JS map modelled as an association list. -/
def alGet (m : List (String × α)) (k : String) : Option α :=
  (m.find? (fun p => p.1 == k)).map (fun p => p.2)

/-- `Map.set`: replaces the first binding of the key, or appends a new one. -/
def alSet (m : List (String × α)) (k : String) (v : α) : List (String × α) :=
  match m with
  | [] => [(k, v)]
  | p :: rest => if p.1 == k then (k, v) :: rest else p :: alSet rest k v

/-- `Map.delete`: removes every binding of the key. -/
def alDel (m : List (String × α)) (k : String) : List (String × α) :=
  m.filter (fun p => p.1 != k)

/-- JS `Array.prototype.indexOf`: index of the first occurrence, `-1` if absent. -/
def jsIndexOf (l : List String) (s : String) : Int :=
  match l.findIdx? (fun x => x == s) with
  | some n => (n : Int)
  | none => -1

/-- JS `array[i]` for an `Int` index; out-of-range access yields `undefined`,
modelled by the sentinel string `"undefined"` (unreachable in the theorems). -/
def listGetI (l : List String) (i : Int) : String :=
  if i < 0 then "undefined" else l.getD i.toNat "undefined"

/-- Bool test for `String.includes` on character lists. -/
def listContainsSub (sub : List Char) : List Char → Bool
  | [] => sub.isEmpty
  | c :: rest => sub.isPrefixOf (c :: rest) || listContainsSub sub rest

/-- JS `String.prototype.includes`. -/
def containsSub (s sub : String) : Bool :=
  listContainsSub sub.data s.data

/-- `CEFR_LEVELS` from `user.schema.ts`: the ordered six-value scale. -/
def CEFR_LEVELS : List String := ["A1", "A2", "B1", "B2", "C1", "C2"]

/-- `LANGUAGES` from `user.schema.ts`. -/
def LANGUAGES : List String := ["english", "spanish"]

/-! ## Feedback structures (`language-analytics.service.ts`, `cefr-analysis.service.ts`)

`PracticeFeedbackAggregate` with the dimension-specific detail lists.  The
fluency filler-word fields are `Option`-typed because the analytics service
never sets them (JS `undefined`) while the CEFR analysis service does. -/

/-- A mispronounced-word entry (word, attempts, lastHeard, ipa, notes). -/
structure MispronouncedWord where
  word : String
  attempts : Int
  lastHeard : Int
  ipa : String
  notes : String
  deriving Repr, DecidableEq

/-- A grammar-error entry.  The source field `example` is renamed
`errExample` (`example` is a Lean keyword). -/
structure GrammarError where
  type : String
  errExample : String
  correction : String
  notes : String
  deriving Repr, DecidableEq

/-- Pronunciation dimension: 0-100 score plus mispronounced-word list. -/
structure PronunciationFeedback where
  score : Int
  mispronouncedWords : List MispronouncedWord
  deriving Repr, DecidableEq

/-- Grammar dimension: 0-100 score plus grammar-error list. -/
structure GrammarFeedback where
  score : Int
  errors : List GrammarError
  deriving Repr, DecidableEq

/-- Vocabulary dimension: 0-100 score plus three word lists. -/
structure VocabularyFeedback where
  score : Int
  rareWordsUsed : List String
  repeatedWords : List String
  suggestedWords : List String
  deriving Repr, DecidableEq

/-- Fluency dimension: score, words-per-minute, native range, pause and
filler-word statistics. -/
structure FluencyFeedback where
  score : Int
  wordsPerMinute : Rat
  nativeRangeMin : Int
  nativeRangeMax : Int
  pausesPerMinute : Int
  fillerWordsCount : Option Int
  fillerWordsRatio : Option Rat
  mostUsedWords : Option (List (String × Int))
  deriving Repr, DecidableEq

/-- `PracticeFeedbackAggregate`: the four independently scored dimensions. -/
structure PracticeFeedbackAggregate where
  pronunciation : PronunciationFeedback
  grammar : GrammarFeedback
  vocabulary : VocabularyFeedback
  fluency : FluencyFeedback
  deriving Repr, DecidableEq

/-! ## `LanguageAnalyticsService` -/

/-- `cefrOrder` from `language-analytics.service.ts`. -/
def cefrOrder : List String := ["A1", "A2", "B1", "B2", "C1", "C2"]

/-- `getNativeRange` from `language-analytics.service.ts`; the catch-all case
models the `undefined` lookup a non-CEFR key would produce (unreachable for
validated levels). -/
def getNativeRange (level : String) : Int × Int :=
  if level = "A1" then (60, 90)
  else if level = "A2" then (80, 110)
  else if level = "B1" then (100, 130)
  else if level = "B2" then (120, 150)
  else if level = "C1" then (140, 170)
  else if level = "C2" then (160, 200)
  else (0, 0)

/-- `createInitialFeedback` from `language-analytics.service.ts`: zero scores,
empty detail lists, native range looked up from the level. -/
def createInitialFeedback (_language : String) (level : String) :
    PracticeFeedbackAggregate :=
  let nativeRange := getNativeRange level
  { pronunciation := { score := 0, mispronouncedWords := [] }
    grammar := { score := 0, errors := [] }
    vocabulary := { score := 0, rareWordsUsed := [], repeatedWords := [], suggestedWords := [] }
    fluency := { score := 0, wordsPerMinute := 0, nativeRangeMin := nativeRange.1,
                 nativeRangeMax := nativeRange.2, pausesPerMinute := 0,
                 fillerWordsCount := none, fillerWordsRatio := none, mostUsedWords := none } }

/-- `recommendLevel` from `language-analytics.service.ts` lines 182-194:
one step up when the mean is at least 85 and not at the top, one step down
when at most 45 and not at the bottom, otherwise unchanged. -/
def recommendLevel (currentLevel : String) (averageScore : Rat) : String :=
  let index := jsIndexOf cefrOrder currentLevel
  if averageScore ≥ 85 ∧ index < (cefrOrder.length : Int) - 1 then
    listGetI cefrOrder (index + 1)
  else if averageScore ≤ 45 ∧ index > 0 then
    listGetI cefrOrder (index - 1)
  else currentLevel

/-! ## `CefrAnalysisService.extractCefrLevelFromResponse`

The source matches nine case-insensitive regular expressions of the shape
`lit ( a? n? ) ([ABC][12]) lit`, capturing the level group.  Patterns are
token lists; matching is attempted at every position, leftmost first, with
the optional characters tried greedily (present before absent), exactly as
the JS regex engine does for these patterns. -/

/-- One token of a level-announcement pattern. -/
inductive PatTok where
  | lit (s : String)
  | optChar (c : Char)
  | group
  | alt (a b : String)
  deriving Repr

/-- Case-insensitive character equality (the `/i` regex flag). -/
def ciEq (a b : Char) : Bool :=
  a.toLower == b.toLower

/-- Matches a literal case-insensitively at the head, returning the rest. -/
def matchLitCI : List Char → List Char → Option (List Char)
  | [], cs => some cs
  | _ :: _, [] => none
  | p :: ps, c :: cs => if ciEq p c then matchLitCI ps cs else none

/-- `[ABC]` (case-insensitive). -/
def isLevelLetter (c : Char) : Bool :=
  let l := c.toLower
  l == 'a' || l == 'b' || l == 'c'

/-- `[12]`. -/
def isLevelDigit (c : Char) : Bool :=
  c == '1' || c == '2'

/-- Matches a token list at the head of the text, returning the captured
level group; `cap` threads a capture already made. -/
def matchToksAt : List PatTok → List Char → Option (Char × Char) → Option (Char × Char)
  | [], _, cap => cap
  | PatTok.lit s :: ts, cs, cap =>
    match matchLitCI s.data cs with
    | some rest => matchToksAt ts rest cap
    | none => none
  | PatTok.optChar c :: ts, cs, cap =>
    (match cs with
     | d :: rest => if ciEq c d then matchToksAt ts rest cap else none
     | [] => none).orElse
      (fun _ => matchToksAt ts cs cap)
  | PatTok.group :: ts, cs, cap =>
    match cs with
    | a :: b :: rest =>
      if isLevelLetter a && isLevelDigit b then matchToksAt ts rest (some (a, b))
      else none
    | _ => none
  | PatTok.alt x y :: ts, cs, cap =>
    (match matchLitCI x.data cs with
     | some rest => matchToksAt ts rest cap
     | none => none).orElse
      (fun _ =>
        match matchLitCI y.data cs with
        | some rest => matchToksAt ts rest cap
        | none => none)

/-- Searches for the pattern at every position, leftmost match first. -/
def searchPattern (ts : List PatTok) : List Char → Option (Char × Char)
  | [] => none
  | c :: rest => (matchToksAt ts (c :: rest) none).orElse (fun _ => searchPattern ts rest)

/-- The nine level-announcement patterns of `extractCefrLevelFromResponse`. -/
def cefrPatterns : List (List PatTok) :=
  [ [PatTok.lit "I believe you have ", PatTok.optChar 'a', PatTok.optChar 'n',
     PatTok.lit " ", PatTok.group, PatTok.lit " level"],
    [PatTok.lit "your level is ", PatTok.group],
    [PatTok.lit "you are at ", PatTok.optChar 'a', PatTok.optChar 'n',
     PatTok.lit " ", PatTok.group, PatTok.lit " level"],
    [PatTok.group, PatTok.lit " level in ", PatTok.alt "English" "Spanish"],
    [PatTok.lit "determined to be ", PatTok.group],
    [PatTok.lit "assess you as ", PatTok.group],
    [PatTok.lit "place you at ", PatTok.group],
    [PatTok.lit "creo que tienes un nivel ", PatTok.group],
    [PatTok.lit "tu nivel es ", PatTok.group] ]

/-- `extractCefrLevelFromResponse` from `cefr-analysis.service.ts`: first
pattern that matches yields the captured group uppercased, returned only if
it is one of the six CEFR levels. -/
def extractCefrLevelFromResponse (responseText : String) : Option String :=
  if responseText = "" then none
  else
    cefrPatterns.findSome? (fun ts =>
      match searchPattern ts responseText.data with
      | some (a, b) =>
        let level := String.mk [a.toUpper, b.toUpper]
        if level ∈ CEFR_LEVELS then some level else none
      | none => none)

/-! ## `CefrAnalysisService.analyzeCefrLevel`

The scoring model is reached through `openai.chat.completions.create` and the
reply is `JSON.parse`d; the embedding takes the parsed reply as an explicit
parameter (`none` models a failed call or unparsable reply, which the source
catches).  Optional JSON fields are `Option`s, mirroring the source's
optional-chaining accesses. -/

/-- A stored transcript message (`StoredMessage` in `redis-storage.service.ts`). -/
structure StoredMessage where
  role : String
  text : String
  audioBase64 : Option String
  timestamp : Int
  deriving Repr, DecidableEq

/-- A mispronounced-word entry of the parsed scoring-model reply. -/
structure ModelWord where
  word : Option String
  attempts : Option Int
  lastHeard : Option Int
  ipa : Option String
  notes : Option String
  deriving Repr

/-- A grammar-error entry of the parsed reply (`example` renamed `errExample`). -/
structure ModelGrammarError where
  type : Option String
  errExample : Option String
  correction : Option String
  notes : Option String
  deriving Repr

/-- The `pronunciation` object of the parsed reply. -/
structure ModelPronunciation where
  score : Option Int
  mispronouncedWords : Option (List ModelWord)
  deriving Repr

/-- The `grammar` object of the parsed reply. -/
structure ModelGrammar where
  score : Option Int
  errors : Option (List ModelGrammarError)
  deriving Repr

/-- The `vocabulary` object of the parsed reply. -/
structure ModelVocabulary where
  score : Option Int
  rareWordsUsed : Option (List String)
  repeatedWords : Option (List String)
  suggestedWords : Option (List String)
  deriving Repr

/-- The `fluency` object of the parsed reply. -/
structure ModelFluency where
  score : Option Int
  nativeRange : Option (Int × Int)
  pausesPerMinute : Option Int
  fillerWordsCount : Option Int
  fillerWordsRatio : Option Rat
  mostUsedWords : Option (List (String × Int))
  deriving Repr

/-- The `feedback` object of the parsed reply. -/
structure ModelFeedback where
  pronunciation : Option ModelPronunciation
  grammar : Option ModelGrammar
  vocabulary : Option ModelVocabulary
  fluency : Option ModelFluency
  deriving Repr

/-- The whole parsed scoring-model reply (`analysisResult` in the source). -/
structure ModelResponse where
  level : Option String
  confidence : Option Rat
  feedback : Option ModelFeedback
  notes : Option String
  deriving Repr

/-- `CefrAnalysisResult` from `cefr-analysis.service.ts`. -/
structure CefrAnalysisResult where
  level : String
  feedback : PracticeFeedbackAggregate
  confidence : Rat
  analysisNotes : String
  deriving Repr, DecidableEq

/-- `mapToFeedbackStructure` from `cefr-analysis.service.ts`: fills every
missing or falsy field with its default; `wordsPerMinute` is always the
locally computed value.  `nowMs` models the `Date.now()` default for
`lastHeard`. -/
def mapToFeedbackStructure (fd : Option ModelFeedback) (wordsPerMinute : Rat)
    (nowMs : Int) : PracticeFeedbackAggregate :=
  let pron := fd.bind (fun f => f.pronunciation)
  let gram := fd.bind (fun f => f.grammar)
  let voc := fd.bind (fun f => f.vocabulary)
  let flu := fd.bind (fun f => f.fluency)
  { pronunciation :=
      { score := jsOrInt (pron.bind (fun p => p.score)) 50
        mispronouncedWords :=
          (jsOrList (pron.bind (fun p => p.mispronouncedWords))).map (fun w =>
            { word := jsOrOpt w.word ""
              attempts := jsOrInt w.attempts 1
              lastHeard := jsOrInt w.lastHeard nowMs
              ipa := jsOrOpt w.ipa ""
              notes := jsOrOpt w.notes "" }) }
    grammar :=
      { score := jsOrInt (gram.bind (fun g => g.score)) 50
        errors :=
          (jsOrList (gram.bind (fun g => g.errors))).map (fun e =>
            { type := jsOrOpt e.type "unknown"
              errExample := jsOrOpt e.errExample ""
              correction := jsOrOpt e.correction ""
              notes := jsOrOpt e.notes "" }) }
    vocabulary :=
      { score := jsOrInt (voc.bind (fun v => v.score)) 50
        rareWordsUsed := jsOrList (voc.bind (fun v => v.rareWordsUsed))
        repeatedWords := jsOrList (voc.bind (fun v => v.repeatedWords))
        suggestedWords := jsOrList (voc.bind (fun v => v.suggestedWords)) }
    fluency :=
      { score := jsOrInt (flu.bind (fun f => f.score)) 50
        wordsPerMinute := wordsPerMinute
        nativeRangeMin := ((flu.bind (fun f => f.nativeRange)).getD (100, 150)).1
        nativeRangeMax := ((flu.bind (fun f => f.nativeRange)).getD (100, 150)).2
        pausesPerMinute := jsOrInt (flu.bind (fun f => f.pausesPerMinute)) 0
        fillerWordsCount := some (jsOrInt (flu.bind (fun f => f.fillerWordsCount)) 0)
        fillerWordsRatio := some (jsOrRat (flu.bind (fun f => f.fillerWordsRatio)) 0)
        mostUsedWords := some (jsOrList (flu.bind (fun f => f.mostUsedWords))) } }

/-- `createFallbackFeedback` from `cefr-analysis.service.ts` lines 310-336:
all four scores 50, every detail list empty. -/
def createFallbackFeedback (wordsPerMinute : Rat) : PracticeFeedbackAggregate :=
  { pronunciation := { score := 50, mispronouncedWords := [] }
    grammar := { score := 50, errors := [] }
    vocabulary := { score := 50, rareWordsUsed := [], repeatedWords := [], suggestedWords := [] }
    fluency := { score := 50, wordsPerMinute := wordsPerMinute,
                 nativeRangeMin := 100, nativeRangeMax := 150, pausesPerMinute := 0,
                 fillerWordsCount := some 0, fillerWordsRatio := some 0,
                 mostUsedWords := some [] } }

/-- Word count of one message: JS `msg.text ? msg.text.split(' ').length : 0`. -/
def messageWordCount (text : String) : Int :=
  if text = "" then 0 else ((text.splitOn " ").length : Int)

/-- The deterministic words-per-minute computation of `analyzeCefrLevel`:
total user words over the duration, 0 when the duration is not positive. -/
def wordsPerMinuteOf (messages : List StoredMessage) (sessionDurationSeconds : Int) : Rat :=
  let userMessages := messages.filter (fun m => m.role == "user")
  let totalWords := userMessages.foldl (fun count m => count + messageWordCount m.text) 0
  if sessionDurationSeconds > 0 then
    ((totalWords : Rat) / (sessionDurationSeconds : Rat)) * 60
  else 0

/-- `analyzeCefrLevel` from `cefr-analysis.service.ts` lines 84-167: on a
parsed reply, level/confidence/notes with their falsy defaults and the mapped
feedback; on scoring-model failure (`none`), the deterministic fallback with
level `A1` and confidence `0.1`.  The function is total: it returns in every
case and never throws. -/
def analyzeCefrLevel (_language : String) (messages : List StoredMessage)
    (sessionDurationSeconds : Int) (nowMs : Int) (model : Option ModelResponse) :
    CefrAnalysisResult :=
  let wordsPerMinute := wordsPerMinuteOf messages sessionDurationSeconds
  match model with
  | some resp =>
    { level := jsOrOpt resp.level "A1"
      feedback := mapToFeedbackStructure resp.feedback wordsPerMinute nowMs
      confidence := jsOrRat resp.confidence (1 / 2)
      analysisNotes := jsOrOpt resp.notes "Analysis completed" }
  | none =>
    { level := "A1"
      feedback := createFallbackFeedback wordsPerMinute
      confidence := 1 / 10
      analysisNotes := "Analysis failed, using fallback assessment" }

/-! ## `RealtimePracticeGateway` audio backup buffer and teardown

From the gateway version holding the audio backup buffer
(`storeAudioChunkForBackup`, `flushAudioBuffer`, `handleStopPractice`,
`handleDisconnect`) together with `RedisStorageService.storeUserAudio`
(append-only per-session audio-segment log) and the realtime service's
`sessions` map (`closeSession`).

Asynchrony: `handleStopPractice` and the speech-stopped handler `await` the
flush, so they are embedded as sequential compositions.  `handleDisconnect`
invokes the flush with `void` (fire and forget): its synchronous prefix runs
up to the `await` on the store, everything after the `await` (the store
landing and the buffer reset) is a pending continuation, modelled by the
`pendingFlush` field and `runPendingFlush`.  A `storeOk` flag models whether
the transient-store write succeeds; on failure the source catches the error
and leaves the buffer untouched. -/

/-- Per-session audio backup buffer (`{ chunks, totalSize, startTime }`). -/
structure BufferInfo where
  chunks : List String
  totalSize : Int
  startTime : Int
  deriving Repr, DecidableEq

/-- The gateway's per-session maps, the relay session map, the transient
store's audio log, and the pending unawaited flush continuation. -/
structure GatewayState where
  sessionToSocket : List (String × String)
  socketToSession : List (String × String)
  userAudioChunks : List (String × List String)
  speechStartTimes : List (String × Int)
  audioBuffer : List (String × BufferInfo)
  relaySessions : List (String × Bool)
  redisAudio : List (String × List (String × Int))
  pendingFlush : Option (String × String × Int)
  deriving Repr, DecidableEq

/-- `RedisStorageService.storeUserAudio`: appends one audio segment to the
per-session log. -/
def storeUserAudio (redis : List (String × List (String × Int))) (sessionId : String)
    (audioBase64 : String) (timestamp : Int) : List (String × List (String × Int)) :=
  alSet redis sessionId ((alGet redis sessionId).getD [] ++ [(audioBase64, timestamp)])

/-- The audio-segment log of one session. -/
def redisSegments (st : GatewayState) (sessionId : String) : List (String × Int) :=
  (alGet st.redisAudio sessionId).getD []

/-- The size threshold of the backup buffer (base64 characters). -/
def audioSizeThreshold : Int := 500000

/-- The time threshold of the backup buffer (milliseconds). -/
def audioTimeThreshold : Int := 30000

/-- `storeAudioChunkForBackup`: initialize the buffer if absent, append the
fragment, and flush when the accumulated size or the elapsed time reaches its
threshold; on a failed store the source catches and keeps the buffer. -/
def storeAudioChunkForBackup (st : GatewayState) (sessionId audioChunk : String)
    (nowMs : Int) (storeOk : Bool) : GatewayState :=
  let buffer0 := (alGet st.audioBuffer sessionId).getD
    { chunks := [], totalSize := 0, startTime := nowMs }
  let buffer : BufferInfo :=
    { buffer0 with chunks := buffer0.chunks ++ [audioChunk],
                   totalSize := buffer0.totalSize + (audioChunk.length : Int) }
  let elapsedTime := nowMs - buffer.startTime
  let shouldStore := buffer.totalSize ≥ audioSizeThreshold ∨ elapsedTime ≥ audioTimeThreshold
  if shouldStore then
    if storeOk then
      { st with
        redisAudio := storeUserAudio st.redisAudio sessionId (String.join buffer.chunks) nowMs
        audioBuffer := alSet st.audioBuffer sessionId
          { chunks := [], totalSize := 0, startTime := nowMs } }
    else
      { st with audioBuffer := alSet st.audioBuffer sessionId buffer }
  else
    { st with audioBuffer := alSet st.audioBuffer sessionId buffer }

/-- `flushAudioBuffer`, awaited (as in `handleStopPractice` and the
speech-stopped handler): a missing or fragment-free buffer is left untouched;
otherwise the concatenated payload is stored and the buffer reset to empty. -/
def flushAudioBuffer (st : GatewayState) (sessionId : String) (nowMs : Int)
    (storeOk : Bool) : GatewayState :=
  match alGet st.audioBuffer sessionId with
  | none => st
  | some buffer =>
    if buffer.chunks.isEmpty then st
    else if storeOk then
      { st with
        redisAudio := storeUserAudio st.redisAudio sessionId (String.join buffer.chunks) nowMs
        audioBuffer := alSet st.audioBuffer sessionId
          { chunks := [], totalSize := 0, startTime := nowMs } }
    else st

/-- `closeSession` from the realtime service: absent session id is a plain
return; otherwise the upstream socket is closed and the entry deleted. -/
def closeSession (sessions : List (String × Bool)) (sessionId : String) :
    List (String × Bool) :=
  match alGet sessions sessionId with
  | none => sessions
  | some _ => alDel sessions sessionId

/-- `handleStopPractice`: awaits the forced flush, then closes the relay
session and deletes every per-session map entry. -/
def handleStopPractice (st : GatewayState) (sessionId clientId : String)
    (nowMs : Int) (storeOk : Bool) : GatewayState :=
  let st1 := flushAudioBuffer st sessionId nowMs storeOk
  { st1 with
    relaySessions := closeSession st1.relaySessions sessionId
    sessionToSocket := alDel st1.sessionToSocket sessionId
    socketToSession := alDel st1.socketToSession clientId
    userAudioChunks := alDel st1.userAudioChunks sessionId
    speechStartTimes := alDel st1.speechStartTimes sessionId
    audioBuffer := alDel st1.audioBuffer sessionId }

/-- The speech-stopped handler's buffer effect: the flush is awaited before
the audio commit; no map entry is removed. -/
def handleSpeechStoppedFlush (st : GatewayState) (sessionId : String) (nowMs : Int)
    (storeOk : Bool) : GatewayState :=
  flushAudioBuffer st sessionId nowMs storeOk

/-- `handleDisconnect`, synchronous prefix: looks up the session of the
socket; if present, starts the flush with `void` (captures the pending store
as a continuation, since `flushAudioBuffer` suspends at the store `await`),
then immediately deletes every per-session map entry and closes the relay
session. -/
def handleDisconnectSync (st : GatewayState) (clientId : String) (nowMs : Int) :
    GatewayState :=
  match alGet st.socketToSession clientId with
  | none => st
  | some sessionId =>
    let pending : Option (String × String × Int) :=
      match alGet st.audioBuffer sessionId with
      | none => none
      | some buffer =>
        if buffer.chunks.isEmpty then none
        else some (sessionId, String.join buffer.chunks, nowMs)
    { st with
      pendingFlush := pending
      sessionToSocket := alDel st.sessionToSocket sessionId
      socketToSession := alDel st.socketToSession clientId
      userAudioChunks := alDel st.userAudioChunks sessionId
      speechStartTimes := alDel st.speechStartTimes sessionId
      audioBuffer := alDel st.audioBuffer sessionId
      relaySessions := closeSession st.relaySessions sessionId }

/-- The continuation of the unawaited disconnect flush: when the store lands
the segment is appended and the buffer entry is re-created empty (the source
runs `audioBuffer.set(sessionId, empty)` after the `await`, even though the
disconnect handler already deleted the entry). -/
def runPendingFlush (st : GatewayState) (resetNowMs : Int) (storeOk : Bool) :
    GatewayState :=
  match st.pendingFlush with
  | none => st
  | some (sessionId, combinedAudio, timestamp) =>
    if storeOk then
      { st with
        redisAudio := storeUserAudio st.redisAudio sessionId combinedAudio timestamp
        audioBuffer := alSet st.audioBuffer sessionId
          { chunks := [], totalSize := 0, startTime := resetNowMs }
        pendingFlush := none }
    else { st with pendingFlush := none }

/-- The accumulated byte count of one session's backup buffer (0 if absent). -/
def bufferSize (st : GatewayState) (sessionId : String) : Int :=
  match alGet st.audioBuffer sessionId with
  | none => 0
  | some b => b.totalSize

/-- The accumulated fragments of one session's backup buffer ([] if absent). -/
def bufferChunks (st : GatewayState) (sessionId : String) : List String :=
  match alGet st.audioBuffer sessionId with
  | none => []
  | some b => b.chunks

/-- The flush condition of `storeAudioChunkForBackup` (`shouldStore`), stated
on the pre-step state: the accumulated size including the incoming fragment
reaches the byte threshold, or the elapsed time since buffer-open reaches the
time threshold. -/
def backupFlushCondition (st : GatewayState) (sessionId audioChunk : String)
    (nowMs : Int) : Prop :=
  let buffer0 := (alGet st.audioBuffer sessionId).getD
    { chunks := [], totalSize := 0, startTime := nowMs }
  buffer0.totalSize + (audioChunk.length : Int) ≥ audioSizeThreshold ∨
    nowMs - buffer0.startTime ≥ audioTimeThreshold

instance (st : GatewayState) (sid chunk : String) (nowMs : Int) :
    Decidable (backupFlushCondition st sid chunk nowMs) := by
  unfold backupFlushCondition
  exact instDecidableOr

/-- A concrete gateway state with one buffered fragment for session `s1`,
used to exercise the disconnect teardown. -/
def c5DemoState : GatewayState :=
  { sessionToSocket := [("s1", "c1")]
    socketToSession := [("c1", "s1")]
    userAudioChunks := [("s1", ["aabb"])]
    speechStartTimes := []
    audioBuffer := [("s1", { chunks := ["aabb"], totalSize := 4, startTime := 0 })]
    relaySessions := [("s1", true)]
    redisAudio := []
    pendingFlush := none }

/-- Runs a sequence of incoming audio fragments (fragment, arrival time)
through `storeAudioChunkForBackup` with succeeding stores. -/
def audioSteps (st : GatewayState) (sessionId : String) :
    List (String × Int) → GatewayState
  | [] => st
  | (chunk, nowMs) :: rest =>
    audioSteps (storeAudioChunkForBackup st sessionId chunk nowMs true) sessionId rest

/-! ## `LanguageService.completePracticeSession`

The completion pipeline of `language.service.ts` lines 373-680.  The
transcript read from the transient store, the parsed scoring-model reply and
the current time are explicit parameters.  Only the observables the claims
speak about are carried in the outcome: the practice-session array, the level
written to the per-language current-level map, the language-test level, and
the post-cleanup conversation-state and stream registries.  Conversation-log
titles and the emitted analytics metrics are not modelled (no claim observes
them).

The source wraps the `analyzeCefrLevel` calls in `try`/`catch`, but the
callee catches scoring-model failures itself and returns its fallback (C3),
so the catch branches are unreachable and the embedding calls the total
function directly. -/

/-- Conversation state held per session in `conversationStates`
(`language.service.ts`): owner, language, level, message log, voice and the
response-in-flight flag. -/
structure ConvState where
  userId : String
  language : String
  level : String
  messages : List (String × String)
  voice : Option String
  processing : Bool
  deriving Repr, DecidableEq

/-- `CompletePracticeSessionDto` (validated completion request):
`endedAt` as epoch milliseconds; `durationSeconds` optional and validated
nonnegative; `level` optional and validated against the CEFR enum. -/
structure CompletePracticeSessionDto where
  language : String
  level : Option String
  endedAtMs : Int
  durationSeconds : Option Int
  feedback : Option PracticeFeedbackAggregate
  deriving Repr

/-- A persisted practice-session record (the fields the claims observe). -/
structure PracticeSessionRec where
  id : String
  startedAt : Int
  endedAt : Option Int
  language : String
  level : String
  durationSeconds : Int
  completed : Bool
  feedback : PracticeFeedbackAggregate
  deriving Repr, DecidableEq

/-- The feedback component of `LanguageAnalyticsService.analyzeCompletion`:
the caller-provided feedback when present (`normalizeFeedback` is the
identity on the embedded representation), else the initial feedback for
`dto.level || 'A1'`.  The metrics component of `analyzeCompletion` feeds only
the completion event, which no claim observes, and is omitted. -/
def analyzeCompletionFeedback (dto : CompletePracticeSessionDto) :
    PracticeFeedbackAggregate :=
  match dto.feedback with
  | some f => f
  | none => createInitialFeedback dto.language (jsOrOpt dto.level "A1")

/-- JS `Math.round(ms / 1000)`: floor of the quotient plus one half. -/
def jsRoundMsToSeconds (ms : Int) : Int :=
  Int.fdiv (2 * ms + 1000) 2000

/-- The synthesized start time for a completion whose session id has no
record (`language.service.ts` lines 394-401): `endedAt - duration`, replaced
by `endedAt - 5 minutes` when the computation lands before the Unix epoch
(the `isNaN` guard is unreachable for a validated date). -/
def synthStartTime (endMs : Int) (durationSeconds : Int) : Int :=
  let durationMs := durationSeconds * 1000
  let startTime := endMs - durationMs
  if startTime < 0 then endMs - 300000 else startTime

/-- The record synthesized for an unknown session id
(`language.service.ts` lines 405-422). -/
def synthesizeSession (sessionId : String) (dto : CompletePracticeSessionDto) :
    PracticeSessionRec :=
  { id := sessionId
    startedAt := synthStartTime dto.endedAtMs (dto.durationSeconds.getD 0)
    endedAt := none
    language := dto.language
    level := jsOrOpt dto.level "A1"
    durationSeconds := 0
    completed := false
    feedback := createInitialFeedback dto.language (jsOrOpt dto.level "A1") }

/-- `user.practiceSessions.find` on the session id. -/
def findSession (userSessions : List PracticeSessionRec) (sessionId : String) :
    Option PracticeSessionRec :=
  userSessions.find? (fun s => s.id == sessionId)

/-- The record the pipeline works on: the found record, else the synthesized
one. -/
def ensuredSession (userSessions : List PracticeSessionRec) (sessionId : String)
    (dto : CompletePracticeSessionDto) : PracticeSessionRec :=
  (findSession userSessions sessionId).getD (synthesizeSession sessionId dto)

/-- `session.durationSeconds = dto.durationSeconds ?? max(0, round((endedAt -
startedAt) / 1000))` (`??` is nullish, so an explicit 0 is kept). -/
def resolvedDurationSeconds (userSessions : List PracticeSessionRec)
    (sessionId : String) (dto : CompletePracticeSessionDto) : Int :=
  match dto.durationSeconds with
  | some d => d
  | none =>
    max 0 (jsRoundMsToSeconds (dto.endedAtMs - (ensuredSession userSessions sessionId dto).startedAt))

/-- The extracted level: the first assistant message whose text matches a
level-announcement pattern. -/
def extractedLevelOf (messages : List StoredMessage) : Option String :=
  (messages.filter (fun m => m.role == "assistant")).findSome?
    (fun m => extractCefrLevelFromResponse m.text)

/-- `isCefrTest`: the session id contains `cefr-test` or `test`. -/
def isCefrTestOf (sessionId : String) : Bool :=
  containsSub sessionId "cefr-test" || containsSub sessionId "test"

/-- `cefrAnalysisResult`: the analyzer runs whenever the transcript is
nonempty (both the test and the plain-practice branch call it), and never
throws. -/
def analysisResultOf (userSessions : List PracticeSessionRec) (sessionId : String)
    (dto : CompletePracticeSessionDto) (messages : List StoredMessage)
    (nowMs : Int) (model : Option ModelResponse) : Option CefrAnalysisResult :=
  if 0 < messages.length then
    some (analyzeCefrLevel dto.language messages
      (resolvedDurationSeconds userSessions sessionId dto) nowMs model)
  else none

/-- `originalLevel = dto.level || session.level`. -/
def originalLevelOf (userSessions : List PracticeSessionRec) (sessionId : String)
    (dto : CompletePracticeSessionDto) : String :=
  jsOrOpt dto.level (ensuredSession userSessions sessionId dto).level

/-- `finalLevel = extractedLevel || cefrAnalysisResult?.level || originalLevel`
(`language.service.ts` line 615). -/
def finalLevelOf (userSessions : List PracticeSessionRec) (sessionId : String)
    (dto : CompletePracticeSessionDto) (messages : List StoredMessage)
    (nowMs : Int) (model : Option ModelResponse) : String :=
  jsOrOpt (extractedLevelOf messages)
    (match analysisResultOf userSessions sessionId dto messages nowMs model with
     | some res => jsOrStr res.level (originalLevelOf userSessions sessionId dto)
     | none => originalLevelOf userSessions sessionId dto)

/-- The mutated session record at the end of the pipeline: end time and
duration set; level and feedback per branch (CEFR test with transcript, plain
practice with transcript, or no transcript); language and completion flag
set last. -/
def completedSessionRecord (userSessions : List PracticeSessionRec) (sessionId : String)
    (dto : CompletePracticeSessionDto) (messages : List StoredMessage)
    (nowMs : Int) (model : Option ModelResponse) : PracticeSessionRec :=
  let session0 := ensuredSession userSessions sessionId dto
  let session1 := { session0 with
    endedAt := some dto.endedAtMs
    durationSeconds := resolvedDurationSeconds userSessions sessionId dto }
  let extractedLevel := extractedLevelOf messages
  let originalLevel := originalLevelOf userSessions sessionId dto
  let session2 :=
    if isCefrTestOf sessionId ∧ 0 < messages.length then
      match analysisResultOf userSessions sessionId dto messages nowMs model with
      | some res =>
        { session1 with
          level := jsOrOpt extractedLevel (jsOrStr res.level originalLevel)
          feedback := res.feedback }
      | none => session1
    else if 0 < messages.length then
      match analysisResultOf userSessions sessionId dto messages nowMs model with
      | some res => { session1 with feedback := res.feedback }
      | none => session1
    else
      let session1f :=
        match dto.feedback with
        | some _ => { session1 with feedback := analyzeCompletionFeedback dto }
        | none => session1
      { session1f with level := jsOrOpt extractedLevel originalLevel }
  { session2 with language := dto.language, completed := true }

/-- Replaces the first record with the given id (the in-place mutation of the
found array element). -/
def replaceFirstById : List PracticeSessionRec → String → PracticeSessionRec →
    List PracticeSessionRec
  | [], _, _ => []
  | s :: rest, sid, s' =>
    if s.id == sid then s' :: rest else s :: replaceFirstById rest sid s'

/-- Number of records with the given id. -/
def countById (sessions : List PracticeSessionRec) (sid : String) : Nat :=
  (sessions.filter (fun s => s.id == sid)).length

/-- The observables of one completion run. -/
structure CompletionOutcome where
  sessions : List PracticeSessionRec
  currentLevel : String
  currentLevelSource : String
  languageTestLevel : Option String
  conversationStates : List (String × ConvState)
  streams : List String
  redisDeleted : Bool
  deriving Repr

/-- `completePracticeSession`: find-or-synthesize the record (a synthesized
record is pushed immediately, line 424), mutate it through the branches,
push it (again) onto the array (line 648), resolve the final level, write the
language test for CEFR tests, upsert the current level, and clean up the
stream and conversation-state registries and the transient store. -/
def completePracticeSession (userSessions : List PracticeSessionRec)
    (conversationStates : List (String × ConvState)) (streams : List String)
    (sessionId : String) (dto : CompletePracticeSessionDto)
    (messages : List StoredMessage) (nowMs : Int) (model : Option ModelResponse) :
    CompletionOutcome :=
  let session3 := completedSessionRecord userSessions sessionId dto messages nowMs model
  let sessionsBefore :=
    match findSession userSessions sessionId with
    | some _ => replaceFirstById userSessions sessionId session3
    | none => userSessions ++ [session3]
  let isCefrTest := isCefrTestOf sessionId
  let analysis := analysisResultOf userSessions sessionId dto messages nowMs model
  let finalLevel := finalLevelOf userSessions sessionId dto messages nowMs model
  { sessions := sessionsBefore ++ [session3]
    currentLevel := finalLevel
    currentLevelSource := if isCefrTest then "test" else "practice"
    languageTestLevel := if isCefrTest ∧ analysis.isSome then some finalLevel else none
    conversationStates := alDel conversationStates sessionId
    streams := (if streams.contains sessionId then streams
                else streams ++ [sessionId]).filter (fun s => s ≠ sessionId)
    redisDeleted := true }

/-- The enum validators `user.save()` runs (`user.schema.ts`: `level` fields
carry `enum: CEFR_LEVELS`, `language` fields `enum: LANGUAGES`): every
persisted practice-session level and language, the current-level value, and
the language-test level must be on the respective enum. -/
def userSaveValidation (out : CompletionOutcome) : Bool :=
  out.sessions.all (fun s => CEFR_LEVELS.contains s.level && LANGUAGES.contains s.language) &&
  CEFR_LEVELS.contains out.currentLevel &&
  (match out.languageTestLevel with
   | some l => CEFR_LEVELS.contains l
   | none => true)

/-- `user.save()`: a validation failure rejects the whole save — nothing is
persisted and the error propagates to the caller. -/
def persistCompletion (out : CompletionOutcome) : Option CompletionOutcome :=
  if userSaveValidation out then some out else none

/-- A pre-existing practice-session record for session `s1`, as
`startPracticeSession` creates it. -/
def demoExistingSession : PracticeSessionRec :=
  { id := "s1"
    startedAt := 0
    endedAt := none
    language := "english"
    level := "A1"
    durationSeconds := 0
    completed := false
    feedback := createInitialFeedback "english" "A1" }

/-- A plain completion request for the demo session. -/
def demoCompleteDto : CompletePracticeSessionDto :=
  { language := "english"
    level := none
    endedAtMs := 600000
    durationSeconds := some 60
    feedback := none }

/-- The conversation state `startPracticeSession` registers for `s1`. -/
def demoConvState : ConvState :=
  { userId := "u1"
    language := "english"
    level := "A1"
    messages := [("system", "prompt")]
    voice := none
    processing := false }

/-- A transcript whose tutor message announces a level. -/
def demoTranscript : List StoredMessage :=
  [ { role := "user", text := "hello I am ready", audioBase64 := none, timestamp := 1 },
    { role := "assistant", text := "Based on our conversation, your level is B2.",
      audioBase64 := none, timestamp := 2 } ]

/-- A completion request that synthesizes a record with an end time shortly
after the Unix epoch and a declared duration exceeding it. -/
def demoEpochDto : CompletePracticeSessionDto :=
  { language := "english"
    level := none
    endedAtMs := 100000
    durationSeconds := some 200
    feedback := none }

/-! ## `LanguageService.handleUserTranscript`

The handler runs in two phases around the `await` on `streamResponse`: a
synchronous prefix that validates the session, the owner and the
response-in-flight flag, appends the learner message, emits the user event
and raises the flag; and a completion phase that appends the tutor reply (on
success, when nonempty after trimming), emits the final assistant message
(or the fixed apology on failure) and clears the flag.  The embedding is a
step relation over these two event kinds; `inFlight` is a ghost counter of
tutor-reply generations currently running for the session. -/

/-- An event emitted to the session's stream. -/
structure Emission where
  kind : String
  text : String
  deriving Repr, DecidableEq

/-- The two phases of `handleUserTranscript` for one session. -/
inductive SessionEvent where
  | transcript (userId : String) (text : String)
  | generationDone (ok : Bool) (finalText : String)
  deriving Repr, DecidableEq

/-- Per-session state: the registered conversation state, if any, plus the
ghost in-flight counter. -/
structure SessionSt where
  conv : Option ConvState
  inFlight : Nat
  deriving Repr, DecidableEq

/-- The fixed apology emitted when a tutor-reply generation fails. -/
def generationFailureMessage : String :=
  "Lo siento, hubo un problema generando la respuesta."

/-- One step of the per-session machine.  A transcript is dropped — state
untouched, nothing emitted, nothing queued — when the session is unknown,
the submitting user is not the owner, or the response-in-flight flag is set;
otherwise the learner message is appended, the user event emitted and a
generation started.  A generation completion appends the trimmed tutor reply
when successful and nonempty, emits the final (or apology) message, and
clears the flag. -/
def stepSession (st : SessionSt) : SessionEvent → SessionSt × List Emission
  | SessionEvent.transcript userId text =>
    match st.conv with
    | none => (st, [])
    | some state =>
      if state.userId ≠ userId then (st, [])
      else if state.processing then (st, [])
      else
        ({ conv := some { state with
              messages := state.messages ++ [("user", text)]
              processing := true }
           inFlight := st.inFlight + 1 },
         [{ kind := "session.event", text := text }])
  | SessionEvent.generationDone ok finalText =>
    match st.conv with
    | none => (st, [])
    | some state =>
      if state.processing then
        ({ conv := some { state with
              messages := state.messages ++
                (if ok ∧ finalText.trim ≠ "" then [("assistant", finalText.trim)] else [])
              processing := false }
           inFlight := st.inFlight - 1 },
         [{ kind := "assistant.message",
            text := if ok then finalText.trim else generationFailureMessage }])
      else (st, [])

/-- Runs a sequence of session events. -/
def runSession (st : SessionSt) : List SessionEvent → SessionSt
  | [] => st
  | e :: rest => runSession (stepSession st e).1 rest

/-- The in-flight counter mirrors the response-in-flight flag. -/
def sessionInvariant (st : SessionSt) : Prop :=
  st.inFlight = match st.conv with
    | some s => if s.processing then 1 else 0
    | none => 0

instance (st : SessionSt) : Decidable (sessionInvariant st) := by
  unfold sessionInvariant
  infer_instance

end Praxtica

namespace Praxtica

/-- C3: on scoring-model failure the analyzer returns (never throws — the
embedded `analyzeCefrLevel` is a total function evaluated on the failure
outcome `none`) a fallback whose level is the lowest level of the scale (A1),
whose four dimension scores are all 50, whose detail lists are all empty, and
whose confidence is the low fixed value 0.1. -/
theorem c3_analyzer_failure_fallback (language : String) (messages : List StoredMessage)
    (durationSeconds nowMs : Int) :
    (analyzeCefrLevel language messages durationSeconds nowMs none).level = "A1" ∧
    CEFR_LEVELS.head? = some (analyzeCefrLevel language messages durationSeconds nowMs none).level ∧
    (analyzeCefrLevel language messages durationSeconds nowMs none).feedback.pronunciation.score = 50 ∧
    (analyzeCefrLevel language messages durationSeconds nowMs none).feedback.grammar.score = 50 ∧
    (analyzeCefrLevel language messages durationSeconds nowMs none).feedback.vocabulary.score = 50 ∧
    (analyzeCefrLevel language messages durationSeconds nowMs none).feedback.fluency.score = 50 ∧
    (analyzeCefrLevel language messages durationSeconds nowMs none).feedback.pronunciation.mispronouncedWords = [] ∧
    (analyzeCefrLevel language messages durationSeconds nowMs none).feedback.grammar.errors = [] ∧
    (analyzeCefrLevel language messages durationSeconds nowMs none).feedback.vocabulary.rareWordsUsed = [] ∧
    (analyzeCefrLevel language messages durationSeconds nowMs none).feedback.vocabulary.repeatedWords = [] ∧
    (analyzeCefrLevel language messages durationSeconds nowMs none).feedback.vocabulary.suggestedWords = [] ∧
    (analyzeCefrLevel language messages durationSeconds nowMs none).feedback.fluency.mostUsedWords = some [] ∧
    (analyzeCefrLevel language messages durationSeconds nowMs none).confidence = 1 / 10 := by
  simp [analyzeCefrLevel, createFallbackFeedback, CEFR_LEVELS]

/-- C6: for a current level at ordinal position `i` of the six-point scale and
mean score `M`: the recommendation is position `i+1` when `M ≥ 85` and `i` is
not the top, position `i-1` when `M ≤ 45` and `i` is not the bottom, and the
current level otherwise. -/
theorem c6_recommend_level_shift (L : String) (M : Rat) (hL : L ∈ cefrOrder) :
    (M ≥ 85 → jsIndexOf cefrOrder L < 5 →
      recommendLevel L M = listGetI cefrOrder (jsIndexOf cefrOrder L + 1)) ∧
    (M ≤ 45 → jsIndexOf cefrOrder L > 0 →
      recommendLevel L M = listGetI cefrOrder (jsIndexOf cefrOrder L - 1)) ∧
    (¬(M ≥ 85 ∧ jsIndexOf cefrOrder L < 5) → ¬(M ≤ 45 ∧ jsIndexOf cefrOrder L > 0) →
      recommendLevel L M = L) := by
  fin_cases hL <;>
    refine ⟨fun h85 hi => ?_, fun h45 hi => ?_, fun hn1 hn2 => ?_⟩ <;>
    simp_all [recommendLevel, jsIndexOf, listGetI, cefrOrder] <;>
    first
      | rfl
      | omega
      | linarith
      | rw [if_neg (not_le.mpr hn1), if_neg (not_le.mpr hn2)]

/-- C6 witness: a B1 learner with mean 90 is recommended B2. -/
theorem c6_recommend_level_shift_witness :
    ("B1" ∈ cefrOrder) ∧
      ((90 : Rat) ≥ 85 → jsIndexOf cefrOrder "B1" < 5 →
        recommendLevel "B1" 90 = listGetI cefrOrder (jsIndexOf cefrOrder "B1" + 1)) :=
  ⟨by decide, (c6_recommend_level_shift "B1" 90 (by decide)).1⟩

/-! ### Association-list helper lemmas -/

/-- Lookup on a cons cell. -/
theorem alGet_cons (p : String × α) (m : List (String × α)) (k : String) :
    alGet (p :: m) k = if p.1 == k then some p.2 else alGet m k := by
  cases hpa : (p.1 == k) with
  | true => simp [alGet, List.find?, hpa]
  | false => simp [alGet, List.find?, hpa]

/-- Looking up the key just set yields the new value. -/
theorem alGet_alSet_self (m : List (String × α)) (k : String) (v : α) :
    alGet (alSet m k v) k = some v := by
  induction m with
  | nil => simp [alGet, alSet]
  | cons p rest ih =>
    by_cases h : p.1 = k
    · simp [alSet, h, alGet_cons]
    · simp [alSet, h, alGet_cons, ih]

/-- Setting one key leaves the other keys unchanged. -/
theorem alGet_alSet_ne (m : List (String × α)) (k k' : String) (v : α) (h : k ≠ k') :
    alGet (alSet m k v) k' = alGet m k' := by
  induction m with
  | nil =>
    have hb : (k == k') = false := by simp [h]
    simp [alGet, alSet, List.find?, hb]
  | cons p rest ih =>
    by_cases hp : p.1 = k
    · subst hp
      simp [alSet, alGet_cons, h]
    · simp [alSet, hp, alGet_cons, ih]

/-- Looking up a deleted key yields nothing. -/
theorem alGet_alDel_self (m : List (String × α)) (k : String) :
    alGet (alDel m k) k = none := by
  induction m with
  | nil => simp [alGet, alDel]
  | cons p rest ih =>
    by_cases h : p.1 = k
    · simpa [alDel, List.filter_cons, h] using ih
    · simpa [alDel, List.filter_cons, h, alGet_cons] using ih

/-- Deleting one key leaves the other keys unchanged. -/
theorem alGet_alDel_ne (m : List (String × α)) (k k' : String) (h : k ≠ k') :
    alGet (alDel m k) k' = alGet m k' := by
  induction m with
  | nil => simp [alGet, alDel]
  | cons p rest ih =>
    by_cases hp : p.1 = k
    · subst hp
      have hstep : alDel (p :: rest) p.1 = alDel rest p.1 := by
        simp [alDel, List.filter_cons]
      rw [hstep, ih, alGet_cons, if_neg (by simp [h])]
    · have hstep : alDel (p :: rest) k = p :: alDel rest k := by
        simp [alDel, List.filter_cons, hp]
      rw [hstep, alGet_cons, alGet_cons, ih]

/-! ### Audio-backup step equations -/

/-- The backup step when the flush condition holds and the store succeeds. -/
theorem storeAudioChunk_eq_pos (st : GatewayState) (sid chunk : String) (nowMs : Int)
    (hc : backupFlushCondition st sid chunk nowMs) :
    storeAudioChunkForBackup st sid chunk nowMs true =
      { st with
        redisAudio := storeUserAudio st.redisAudio sid
          (String.join (((alGet st.audioBuffer sid).getD
            { chunks := [], totalSize := 0, startTime := nowMs }).chunks ++ [chunk])) nowMs
        audioBuffer := alSet st.audioBuffer sid
          { chunks := [], totalSize := 0, startTime := nowMs } } := by
  simp only [backupFlushCondition] at hc
  simp only [storeAudioChunkForBackup]
  rw [if_pos hc]
  simp

/-- The backup step when the flush condition fails: the fragment is
accumulated only. -/
theorem storeAudioChunk_eq_neg (st : GatewayState) (sid chunk : String) (nowMs : Int)
    (storeOk : Bool) (hc : ¬ backupFlushCondition st sid chunk nowMs) :
    storeAudioChunkForBackup st sid chunk nowMs storeOk =
      { st with
        audioBuffer := alSet st.audioBuffer sid
          { chunks := ((alGet st.audioBuffer sid).getD
              { chunks := [], totalSize := 0, startTime := nowMs }).chunks ++ [chunk]
            totalSize := ((alGet st.audioBuffer sid).getD
              { chunks := [], totalSize := 0, startTime := nowMs }).totalSize + (chunk.length : Int)
            startTime := ((alGet st.audioBuffer sid).getD
              { chunks := [], totalSize := 0, startTime := nowMs }).startTime } } := by
  simp only [backupFlushCondition] at hc
  simp only [storeAudioChunkForBackup]
  rw [if_neg hc]

/-- One audio-backup step with a succeeding store enlarges the session's
segment log exactly when the flush condition holds on the pre-step buffer. -/
theorem backup_step_segment_growth (st : GatewayState) (sid chunk : String) (nowMs : Int) :
    ((redisSegments (storeAudioChunkForBackup st sid chunk nowMs true) sid).length =
        (redisSegments st sid).length + 1 ↔ backupFlushCondition st sid chunk nowMs) ∧
    (¬ backupFlushCondition st sid chunk nowMs →
      (storeAudioChunkForBackup st sid chunk nowMs true).redisAudio = st.redisAudio) := by
  by_cases hc : backupFlushCondition st sid chunk nowMs
  · refine ⟨iff_of_true ?_ hc, fun hn => absurd hc hn⟩
    rw [storeAudioChunk_eq_pos st sid chunk nowMs hc]
    simp only [redisSegments, storeUserAudio, alGet_alSet_self]
    simp
  · have hunch : (storeAudioChunkForBackup st sid chunk nowMs true).redisAudio = st.redisAudio := by
      rw [storeAudioChunk_eq_neg st sid chunk nowMs true hc]
    refine ⟨iff_of_false ?_ hc, fun _ => hunch⟩
    simp only [redisSegments, hunch]
    omega

/-- After a triggered flush with a succeeding store, the buffer is reset
empty (size 0). -/
theorem backup_step_reset (st : GatewayState) (sid chunk : String) (nowMs : Int)
    (hc : backupFlushCondition st sid chunk nowMs) :
    bufferSize (storeAudioChunkForBackup st sid chunk nowMs true) sid = 0 := by
  rw [storeAudioChunk_eq_pos st sid chunk nowMs hc]
  simp [bufferSize, alGet_alSet_self]

/-- Every audio-backup step with a succeeding store keeps the accumulated
size below the byte threshold. -/
theorem backup_step_below_threshold (st : GatewayState) (sid chunk : String) (nowMs : Int)
    (h : bufferSize st sid < audioSizeThreshold) :
    bufferSize (storeAudioChunkForBackup st sid chunk nowMs true) sid < audioSizeThreshold := by
  by_cases hc : backupFlushCondition st sid chunk nowMs
  · rw [backup_step_reset st sid chunk nowMs hc]
    simp [audioSizeThreshold]
  · rw [storeAudioChunk_eq_neg st sid chunk nowMs true hc]
    have hsz : ((alGet st.audioBuffer sid).getD
        { chunks := [], totalSize := 0, startTime := nowMs }).totalSize + (chunk.length : Int) <
        audioSizeThreshold := by
      rcases not_or.mp hc with ⟨h1, _⟩
      omega
    simpa [bufferSize, alGet_alSet_self] using hsz

/-- Running any fragment sequence with succeeding stores keeps the
accumulated size below the byte threshold. -/
theorem audioSteps_below_threshold (sid : String) (frags : List (String × Int))
    (st : GatewayState) (h : bufferSize st sid < audioSizeThreshold) :
    bufferSize (audioSteps st sid frags) sid < audioSizeThreshold := by
  induction frags generalizing st with
  | nil => simpa [audioSteps] using h
  | cons f rest ih =>
    exact ih _ (backup_step_below_threshold st sid f.1 f.2 h)

/-- C4: with a reachable transient store, an incoming audio fragment triggers
a flush exactly when the accumulated size reaches the byte threshold or the
elapsed time since buffer-open reaches the time threshold (the source checks
the thresholds at each fragment arrival); after every flush the accumulated
size is reset to 0, below the byte threshold, and stays below it over any
fragment sequence; and flushing a buffer with zero accumulated fragments is a
no-op. -/
theorem c4_backup_buffer_policy :
    (∀ (st : GatewayState) (sid chunk : String) (nowMs : Int),
      (redisSegments (storeAudioChunkForBackup st sid chunk nowMs true) sid).length =
          (redisSegments st sid).length + 1 ↔
        backupFlushCondition st sid chunk nowMs) ∧
    (∀ (st : GatewayState) (sid chunk : String) (nowMs : Int),
      backupFlushCondition st sid chunk nowMs →
        bufferSize (storeAudioChunkForBackup st sid chunk nowMs true) sid = 0 ∧
          (0 : Int) < audioSizeThreshold) ∧
    (∀ (st : GatewayState) (sid : String) (frags : List (String × Int)),
      bufferSize st sid < audioSizeThreshold →
        bufferSize (audioSteps st sid frags) sid < audioSizeThreshold) ∧
    (∀ (st : GatewayState) (sid : String) (nowMs : Int) (storeOk : Bool),
      bufferChunks st sid = [] → flushAudioBuffer st sid nowMs storeOk = st) := by
  refine ⟨fun st sid chunk nowMs => (backup_step_segment_growth st sid chunk nowMs).1,
    fun st sid chunk nowMs hc => ⟨backup_step_reset st sid chunk nowMs hc, by simp [audioSizeThreshold]⟩,
    fun st sid frags h => audioSteps_below_threshold sid frags st h,
    fun st sid nowMs storeOk hemp => ?_⟩
  unfold flushAudioBuffer
  unfold bufferChunks at hemp
  cases hget : alGet st.audioBuffer sid with
  | none => rfl
  | some b =>
    rw [hget] at hemp
    have hbc : b.chunks = [] := hemp
    have hbe : b.chunks.isEmpty = true := by simp [hbc]
    simp [hbe]

/-- C4 witness: from an empty state a first small fragment does not flush; a
fragment arriving at the 30-second mark flushes, and the size is reset to 0;
the empty flush is a no-op on the demo state after teardown. -/
theorem c4_backup_buffer_policy_witness :
    (¬ backupFlushCondition c5DemoState "s1" "zz" 1 →
      (storeAudioChunkForBackup c5DemoState "s1" "zz" 1 true).redisAudio =
        c5DemoState.redisAudio) ∧
    backupFlushCondition c5DemoState "s1" "zz" 30000 ∧
    bufferSize (storeAudioChunkForBackup c5DemoState "s1" "zz" 30000 true) "s1" = 0 ∧
    bufferSize c5DemoState "s1" < audioSizeThreshold ∧
    bufferSize (audioSteps c5DemoState "s1" [("q", 5), ("r", 7)]) "s1" < audioSizeThreshold ∧
    bufferChunks (handleStopPractice c5DemoState "s1" "c1" 40 true) "s1" = [] ∧
    flushAudioBuffer (handleStopPractice c5DemoState "s1" "c1" 40 true) "s1" 50 true =
      handleStopPractice c5DemoState "s1" "c1" 40 true :=
  ⟨(backup_step_segment_growth c5DemoState "s1" "zz" 1).2,
    by decide,
    (c4_backup_buffer_policy.2.1 c5DemoState "s1" "zz" 30000 (by decide)).1,
    by decide,
    c4_backup_buffer_policy.2.2.1 c5DemoState "s1" [("q", 5), ("r", 7)] (by decide),
    by decide,
    c4_backup_buffer_policy.2.2.2 (handleStopPractice c5DemoState "s1" "c1" 40 true)
      "s1" 50 true (by decide)⟩

/-- C5: the claim fails on the disconnect path. In the concrete disconnect
execution below, the synchronous part of `handleDisconnect` removes the
session's buffer entry while the forced flush is still pending — no segment
has reached the transient store and the continuation has not run — so the
flush does not complete before the entries are removed; the late continuation
then re-creates an (empty) buffer entry after teardown. -/
theorem c5_disconnect_removes_before_flush_completes :
    alGet (handleDisconnectSync c5DemoState "c1" 100).audioBuffer "s1" = none ∧
    alGet (handleDisconnectSync c5DemoState "c1" 100).sessionToSocket "s1" = none ∧
    redisSegments (handleDisconnectSync c5DemoState "c1" 100) "s1" = [] ∧
    (handleDisconnectSync c5DemoState "c1" 100).pendingFlush = some ("s1", "aabb", 100) ∧
    redisSegments (runPendingFlush (handleDisconnectSync c5DemoState "c1" 100) 200 true) "s1" =
      [("aabb", 100)] ∧
    alGet (runPendingFlush (handleDisconnectSync c5DemoState "c1" 100) 200 true).audioBuffer "s1" =
      some { chunks := [], totalSize := 0, startTime := 200 } := by
  decide

/-- C7: closing (tearing down) a session that was never opened or is already
closed is a plain no-op rather than an error, and closing twice has the same
effect on the session registry as closing once. -/
theorem c7_close_session_idempotent (sessions : List (String × Bool)) (sessionId : String) :
    (alGet sessions sessionId = none → closeSession sessions sessionId = sessions) ∧
    closeSession (closeSession sessions sessionId) sessionId =
      closeSession sessions sessionId := by
  constructor
  · intro h
    unfold closeSession
    rw [h]
  · cases h : alGet sessions sessionId with
    | none =>
      have h1 : closeSession sessions sessionId = sessions := by
        unfold closeSession
        rw [h]
      rw [h1, h1]
    | some c =>
      have h1 : closeSession sessions sessionId = alDel sessions sessionId := by
        unfold closeSession
        rw [h]
      rw [h1]
      unfold closeSession
      rw [alGet_alDel_self]

/-- C7 witness: closing the absent session `b` is a no-op, and closing the
present session `s1` twice equals closing it once. -/
theorem c7_close_session_idempotent_witness :
    (alGet ([("s1", true)] : List (String × Bool)) "b" = none) ∧
    closeSession [("s1", true)] "b" = [("s1", true)] ∧
    closeSession (closeSession [("s1", true)] "s1") "s1" =
      closeSession [("s1", true)] "s1" :=
  ⟨by decide, (c7_close_session_idempotent [("s1", true)] "b").1 (by decide),
    (c7_close_session_idempotent [("s1", true)] "s1").2⟩

/-! ### Level extraction and completion lemmas -/

/-- A successful `findSome?` comes from some list element. -/
theorem findSome?_mem_of_eq_some {α β : Type} (f : α → Option β) (l : List α) (b : β)
    (h : l.findSome? f = some b) : ∃ a, a ∈ l ∧ f a = some b := by
  induction l with
  | nil => simp [List.findSome?] at h
  | cons x xs ih =>
    rw [List.findSome?_cons] at h
    cases hf : f x with
    | some v =>
      rw [hf] at h
      have hv : (some v : Option β) = some b := h
      exact ⟨x, by simp, by rw [hf]; exact hv⟩
    | none =>
      rw [hf] at h
      have h2 : List.findSome? f xs = some b := h
      obtain ⟨a, hmem, hfa⟩ := ih h2
      exact ⟨a, by simp [hmem], hfa⟩

/-- An extracted level is always one of the six CEFR values (the source
checks the captured group against the scale before returning it). -/
theorem extract_level_mem (t l : String) (h : extractCefrLevelFromResponse t = some l) :
    l ∈ CEFR_LEVELS := by
  unfold extractCefrLevelFromResponse at h
  by_cases ht : t = ""
  · rw [if_pos ht] at h
    exact absurd h (by simp)
  · rw [if_neg ht] at h
    obtain ⟨ts, _, hf⟩ := findSome?_mem_of_eq_some _ _ _ h
    cases hsp : searchPattern ts t.data with
    | none => rw [hsp] at hf; exact absurd hf (by simp)
    | some ab =>
      rw [hsp] at hf
      by_cases hm : String.mk [ab.1.toUpper, ab.2.toUpper] ∈ CEFR_LEVELS
      · have : some (String.mk [ab.1.toUpper, ab.2.toUpper]) = some l := by
          simpa [hm] using hf
        rw [← Option.some_inj.mp this]
        exact hm
      · exact absurd hf (by simp [hm])

/-- A level extracted from the transcript is one of the six CEFR values. -/
theorem extractedLevelOf_mem (messages : List StoredMessage) (l : String)
    (h : extractedLevelOf messages = some l) : l ∈ CEFR_LEVELS := by
  obtain ⟨m, _, hm⟩ := findSome?_mem_of_eq_some _ _ _ h
  exact extract_level_mem _ _ hm

/-- The analyzer never reports the empty string as a level (the falsy default
is `A1`). -/
theorem analyzeCefrLevel_level_ne (language : String) (messages : List StoredMessage)
    (durationSeconds nowMs : Int) (model : Option ModelResponse) :
    (analyzeCefrLevel language messages durationSeconds nowMs model).level ≠ "" := by
  cases model with
  | none => simp [analyzeCefrLevel]
  | some r =>
    simp only [analyzeCefrLevel]
    unfold jsOrOpt
    cases r.level with
    | none => simp
    | some s => by_cases hs : s = "" <;> simp [hs]

/-- The outcome's current level is the line-615 reconciliation. -/
theorem completePracticeSession_currentLevel (userSessions : List PracticeSessionRec)
    (convStates : List (String × ConvState)) (streams : List String) (sessionId : String)
    (dto : CompletePracticeSessionDto) (messages : List StoredMessage) (nowMs : Int)
    (model : Option ModelResponse) :
    (completePracticeSession userSessions convStates streams sessionId dto messages
      nowMs model).currentLevel = finalLevelOf userSessions sessionId dto messages nowMs model :=
  rfl

/-- The outcome's language-test level: the final level for CEFR tests with a
transcript, absent otherwise. -/
theorem completePracticeSession_testLevel (userSessions : List PracticeSessionRec)
    (convStates : List (String × ConvState)) (streams : List String) (sessionId : String)
    (dto : CompletePracticeSessionDto) (messages : List StoredMessage) (nowMs : Int)
    (model : Option ModelResponse) :
    (completePracticeSession userSessions convStates streams sessionId dto messages
      nowMs model).languageTestLevel =
      if isCefrTestOf sessionId ∧ (analysisResultOf userSessions sessionId dto messages
        nowMs model).isSome then
        some (finalLevelOf userSessions sessionId dto messages nowMs model)
      else none :=
  rfl

/-- C1: for every completion that is actually persisted (`user.save()`
accepted), the persisted final level follows the strict priority of line 615:
the level extracted from a tutor message when one matches, else the level the
analyzer reported when analysis ran (the analyzer runs whenever the
transcript is nonempty and reports its own A1 fallback on scoring-model
failure), else the original level — the level supplied with the request, or
the session record's level when none was supplied; the CEFR-test result
carries the same level; the persisted level is one of the six CEFR values
(the schema's enum validator rejects any other save); and the priority never
depends on the reported confidence. -/
theorem c1_final_level_priority (userSessions : List PracticeSessionRec)
    (convStates : List (String × ConvState)) (streams : List String) (sessionId : String)
    (dto : CompletePracticeSessionDto) (messages : List StoredMessage) (nowMs : Int)
    (model : Option ModelResponse)
    (hsave : (persistCompletion (completePracticeSession userSessions convStates streams
      sessionId dto messages nowMs model)).isSome) :
    (∀ e, extractedLevelOf messages = some e →
      (completePracticeSession userSessions convStates streams sessionId dto messages
        nowMs model).currentLevel = e) ∧
    (extractedLevelOf messages = none → 0 < messages.length →
      (completePracticeSession userSessions convStates streams sessionId dto messages
        nowMs model).currentLevel =
        (analyzeCefrLevel dto.language messages
          (resolvedDurationSeconds userSessions sessionId dto) nowMs model).level) ∧
    (extractedLevelOf messages = none → messages.length = 0 →
      (completePracticeSession userSessions convStates streams sessionId dto messages
        nowMs model).currentLevel =
        jsOrOpt dto.level (ensuredSession userSessions sessionId dto).level) ∧
    (completePracticeSession userSessions convStates streams sessionId dto messages
      nowMs model).currentLevel ∈ CEFR_LEVELS ∧
    ((completePracticeSession userSessions convStates streams sessionId dto messages
        nowMs model).languageTestLevel = none ∨
      (completePracticeSession userSessions convStates streams sessionId dto messages
        nowMs model).languageTestLevel =
        some ((completePracticeSession userSessions convStates streams sessionId dto messages
          nowMs model).currentLevel)) ∧
    (∀ (r : ModelResponse) (c : Rat), model = some r →
      (completePracticeSession userSessions convStates streams sessionId dto messages nowMs
        (some { r with confidence := some c })).currentLevel =
      (completePracticeSession userSessions convStates streams sessionId dto messages
        nowMs model).currentLevel) := by
  refine ⟨?_, ?_, ?_, ?_, ?_, ?_⟩
  · intro e hext
    rw [completePracticeSession_currentLevel]
    unfold finalLevelOf
    rw [hext]
    have hmem := extractedLevelOf_mem messages e hext
    have hne : e ≠ "" := by
      intro he
      rw [he] at hmem
      exact absurd hmem (by decide)
    simp [jsOrOpt, hne]
  · intro hext hlen
    rw [completePracticeSession_currentLevel]
    unfold finalLevelOf
    rw [hext]
    unfold analysisResultOf
    rw [if_pos hlen]
    have hne := analyzeCefrLevel_level_ne dto.language messages
      (resolvedDurationSeconds userSessions sessionId dto) nowMs model
    simp [jsOrOpt, jsOrStr, hne]
  · intro hext hlen
    rw [completePracticeSession_currentLevel]
    unfold finalLevelOf
    rw [hext]
    unfold analysisResultOf
    rw [if_neg (by omega)]
    simp [jsOrOpt, originalLevelOf]
  · have hval : userSaveValidation (completePracticeSession userSessions convStates streams
        sessionId dto messages nowMs model) = true := by
      by_contra hnv
      unfold persistCompletion at hsave
      rw [if_neg hnv] at hsave
      exact absurd hsave (by simp)
    simp only [userSaveValidation, Bool.and_eq_true] at hval
    have hcl := hval.1.2
    simpa using hcl
  · rw [completePracticeSession_testLevel, completePracticeSession_currentLevel]
    split
    · right; rfl
    · left; rfl
  · intro r c hr
    subst hr
    rw [completePracticeSession_currentLevel, completePracticeSession_currentLevel]
    unfold finalLevelOf analysisResultOf
    by_cases hlen : 0 < messages.length
    · rw [if_pos hlen, if_pos hlen]
      simp [analyzeCefrLevel]
    · rw [if_neg hlen, if_neg hlen]

/-- C1 witness: a placement-test completion whose tutor message announces B2
persists level B2 even though the analyzer (scoring model unreachable)
reported its A1 fallback. -/
theorem c1_final_level_priority_witness :
    (persistCompletion (completePracticeSession [] [] [] "cefr-test-1" demoCompleteDto
      demoTranscript 0 none)).isSome ∧
    extractedLevelOf demoTranscript = some "B2" ∧
    (completePracticeSession [] [] [] "cefr-test-1" demoCompleteDto demoTranscript 0
      none).currentLevel = "B2" :=
  ⟨by decide, by decide,
    (c1_final_level_priority [] [] [] "cefr-test-1" demoCompleteDto demoTranscript 0 none
      (by decide)).1 "B2" (by decide)⟩

/-- C2: at the failing input — completing the one existing record `s1` — the
conversation-state and stream registries are cleaned and the gateway's stop
teardown removes the socket maps, the backup buffer and the relay session,
but the completed record is pushed a second time: it appears twice in the
persisted practice-session list, not exactly once as specified. -/
theorem c2_session_persisted_twice :
    countById [demoExistingSession] "s1" = 1 ∧
    countById (completePracticeSession [demoExistingSession] [("s1", demoConvState)] ["s1"]
      "s1" demoCompleteDto [] 0 none).sessions "s1" = 2 ∧
    alGet (completePracticeSession [demoExistingSession] [("s1", demoConvState)] ["s1"]
      "s1" demoCompleteDto [] 0 none).conversationStates "s1" = none ∧
    (completePracticeSession [demoExistingSession] [("s1", demoConvState)] ["s1"]
      "s1" demoCompleteDto [] 0 none).streams = [] ∧
    alGet (handleStopPractice c5DemoState "s1" "c1" 40 true).sessionToSocket "s1" = none ∧
    alGet (handleStopPractice c5DemoState "s1" "c1" 40 true).audioBuffer "s1" = none ∧
    alGet (handleStopPractice c5DemoState "s1" "c1" 40 true).relaySessions "s1" = none := by
  decide

/-- The completed record keeps the start time of the record it was built
from. -/
theorem completedSessionRecord_startedAt (userSessions : List PracticeSessionRec)
    (sessionId : String) (dto : CompletePracticeSessionDto)
    (messages : List StoredMessage) (nowMs : Int) (model : Option ModelResponse) :
    (completedSessionRecord userSessions sessionId dto messages nowMs model).startedAt =
      (ensuredSession userSessions sessionId dto).startedAt := by
  simp only [completedSessionRecord]
  split
  · split <;> rfl
  · split
    · split <;> rfl
    · split <;> rfl

/-- C8: the synthesized record's start time as the code computes it: end time
minus the declared duration, replaced by end time minus 5 minutes when the
difference falls before the Unix epoch.  With the validated nonnegative
duration it is never in the future and never more than
`max(duration, 5 minutes)` in the past — but the pre-epoch fallback can
exceed one declared-duration unit in the past (see the counterexample). -/
theorem c8_synth_start_time (userSessions : List PracticeSessionRec)
    (convStates : List (String × ConvState)) (streams : List String) (sessionId : String)
    (dto : CompletePracticeSessionDto) (messages : List StoredMessage) (nowMs : Int)
    (model : Option ModelResponse)
    (hnf : findSession userSessions sessionId = none)
    (hdur : 0 ≤ dto.durationSeconds.getD 0) :
    (synthStartTime dto.endedAtMs (dto.durationSeconds.getD 0) =
        dto.endedAtMs - dto.durationSeconds.getD 0 * 1000 ∨
      synthStartTime dto.endedAtMs (dto.durationSeconds.getD 0) = dto.endedAtMs - 300000) ∧
    synthStartTime dto.endedAtMs (dto.durationSeconds.getD 0) ≤ dto.endedAtMs ∧
    dto.endedAtMs - max (dto.durationSeconds.getD 0 * 1000) 300000 ≤
      synthStartTime dto.endedAtMs (dto.durationSeconds.getD 0) ∧
    ((completePracticeSession userSessions convStates streams sessionId dto messages nowMs
      model).sessions.getLast?).map (fun s => s.startedAt) =
      some (synthStartTime dto.endedAtMs (dto.durationSeconds.getD 0)) := by
  have hmax : (300000 : Int) ≤ max (dto.durationSeconds.getD 0 * 1000) 300000 :=
    le_max_right _ _
  have hmax2 : dto.durationSeconds.getD 0 * 1000 ≤
      max (dto.durationSeconds.getD 0 * 1000) 300000 := le_max_left _ _
  refine ⟨?_, ?_, ?_, ?_⟩
  · simp only [synthStartTime]
    split
    · right; rfl
    · left; rfl
  · simp only [synthStartTime]
    split <;> omega
  · simp only [synthStartTime]
    split <;> omega
  · have hsessions : (completePracticeSession userSessions convStates streams sessionId dto
        messages nowMs model).sessions =
        (userSessions ++ [completedSessionRecord userSessions sessionId dto messages nowMs model]) ++
          [completedSessionRecord userSessions sessionId dto messages nowMs model] := by
      simp only [completePracticeSession]
      rw [hnf]
    rw [hsessions, List.getLast?_concat]
    simp only [Option.map_some']
    rw [completedSessionRecord_startedAt]
    unfold ensuredSession
    rw [hnf]
    rfl

/-- C8 counterexample: for a completion ending 100 seconds after the Unix
epoch with a declared duration of 200 seconds, the synthesized start time is
`end - 5 minutes = -200000`, which lies more than one declared-duration unit
(200000 ms) before the end time — the claimed clamp does not hold. -/
theorem c8_synth_start_time_counterexample :
    ((completePracticeSession [] [] [] "s2" demoEpochDto [] 0 none).sessions.map
      (fun s => s.startedAt)) = [-200000, -200000] ∧
    (-200000 : Int) < demoEpochDto.endedAtMs - demoEpochDto.durationSeconds.getD 0 * 1000 := by
  decide

/-- C8 witness: the amended start-time rule applied to the epoch-corner
request. -/
theorem c8_synth_start_time_witness :
    (findSession [] "s2" = none) ∧ (0 ≤ demoEpochDto.durationSeconds.getD 0) ∧
    ((completePracticeSession [] [] [] "s2" demoEpochDto [] 0 none).sessions.getLast?).map
      (fun s => s.startedAt) =
      some (synthStartTime demoEpochDto.endedAtMs (demoEpochDto.durationSeconds.getD 0)) :=
  ⟨by decide, by decide,
    (c8_synth_start_time [] [] [] "s2" demoEpochDto [] 0 none (by decide) (by decide)).2.2.2⟩

/-! ### Response-in-flight lemmas -/

/-- Every step preserves the flag/counter correspondence. -/
theorem stepSession_invariant (st : SessionSt) (e : SessionEvent)
    (h : sessionInvariant st) : sessionInvariant (stepSession st e).1 := by
  unfold sessionInvariant at h ⊢
  cases e with
  | transcript u t =>
    cases hc : st.conv with
    | none => simpa [stepSession, hc] using h
    | some s =>
      rw [hc] at h
      by_cases hu : s.userId ≠ u
      · simpa [stepSession, hc, hu] using h
      · by_cases hp : s.processing
        · simpa [stepSession, hc, hu, hp] using h
        · simp [stepSession, hc, hu, hp] at h ⊢
          omega
  | generationDone ok txt =>
    cases hc : st.conv with
    | none => simpa [stepSession, hc] using h
    | some s =>
      rw [hc] at h
      by_cases hp : s.processing
      · simp [stepSession, hc, hp] at h ⊢
        omega
      · simpa [stepSession, hc, hp] using h

/-- The correspondence holds along every event sequence. -/
theorem runSession_invariant (events : List SessionEvent) (st : SessionSt)
    (h : sessionInvariant st) : sessionInvariant (runSession st events) := by
  induction events generalizing st with
  | nil => simpa [runSession] using h
  | cons e rest ih =>
    exact ih _ (stepSession_invariant st e h)

/-- C9: while the response-in-flight flag is set, an arriving
learner-transcript event is dropped — the state (conversation log included)
is unchanged and nothing is emitted or queued; along every event sequence
from a state satisfying the flag/counter correspondence at most one
tutor-reply generation is in flight; and after a generation completes —
successfully or not — the flag is clear. -/
theorem c9_single_generation_in_flight :
    (∀ (st : SessionSt) (s : ConvState) (u t : String),
      st.conv = some s → s.processing = true →
        stepSession st (SessionEvent.transcript u t) = (st, [])) ∧
    (∀ (st : SessionSt) (events : List SessionEvent),
      sessionInvariant st → (runSession st events).inFlight ≤ 1) ∧
    (∀ (st : SessionSt) (s : ConvState) (ok : Bool) (txt : String),
      st.conv = some s →
        ∃ s2, (stepSession st (SessionEvent.generationDone ok txt)).1.conv = some s2 ∧
          s2.processing = false) := by
  refine ⟨?_, ?_, ?_⟩
  · intro st s u t hc hp
    by_cases hu : s.userId ≠ u <;> simp [stepSession, hc, hu, hp]
  · intro st events h
    have hinv := runSession_invariant events st h
    unfold sessionInvariant at hinv
    rw [hinv]
    cases (runSession st events).conv with
    | none => simp
    | some s => by_cases hp : s.processing <;> simp [hp]
  · intro st s ok txt hc
    by_cases hp : s.processing
    · refine ⟨{ s with
        messages := s.messages ++
          (if ok ∧ txt.trim ≠ "" then [("assistant", txt.trim)] else [])
        processing := false }, ?_, rfl⟩
      simp [stepSession, hc, hp]
    · refine ⟨s, ?_, by simpa using hp⟩
      simp [stepSession, hc, hp]

/-- C9 witness: a transcript arriving while a reply is generating is dropped;
the demo trace keeps at most one generation in flight; completing a
generation clears the flag. -/
theorem c9_single_generation_in_flight_witness :
    (SessionSt.mk (some { demoConvState with processing := true }) 1).conv =
        some { demoConvState with processing := true } ∧
    ({ demoConvState with processing := true } : ConvState).processing = true ∧
    stepSession (SessionSt.mk (some { demoConvState with processing := true }) 1)
        (SessionEvent.transcript "u1" "hi") =
      (SessionSt.mk (some { demoConvState with processing := true }) 1, []) ∧
    sessionInvariant (SessionSt.mk (some demoConvState) 0) ∧
    (runSession (SessionSt.mk (some demoConvState) 0)
      [SessionEvent.transcript "u1" "hello there",
       SessionEvent.generationDone true "Nice to meet you!"]).inFlight ≤ 1 :=
  ⟨rfl, rfl,
    (c9_single_generation_in_flight).1 _ { demoConvState with processing := true } "u1" "hi"
      rfl rfl,
    by decide,
    (c9_single_generation_in_flight).2.1 (SessionSt.mk (some demoConvState) 0)
      [SessionEvent.transcript "u1" "hello there",
       SessionEvent.generationDone true "Nice to meet you!"] (by decide)⟩

/-- C10: a learner-transcript event submitted for a live session by a user id
other than the owner is rejected: the conversation state is left entirely
unchanged, no tutor-reply generation is started (the in-flight counter is
untouched), and no event is emitted for the session. -/
theorem c10_foreign_user_transcript_rejected (st : SessionSt) (s : ConvState)
    (userId text : String) (hconv : st.conv = some s) (hu : s.userId ≠ userId) :
    stepSession st (SessionEvent.transcript userId text) = (st, []) := by
  simp [stepSession, hconv, hu]

/-- C10 witness: an intruder's transcript on the demo session is a no-op. -/
theorem c10_foreign_user_transcript_rejected_witness :
    (SessionSt.mk (some demoConvState) 0).conv = some demoConvState ∧
    demoConvState.userId ≠ "intruder" ∧
    stepSession (SessionSt.mk (some demoConvState) 0)
        (SessionEvent.transcript "intruder" "hello") =
      (SessionSt.mk (some demoConvState) 0, []) :=
  ⟨rfl, by decide,
    c10_foreign_user_transcript_rejected (SessionSt.mk (some demoConvState) 0) demoConvState
      "intruder" "hello" rfl (by decide)⟩

end Praxtica
